import Mathlib

/-!
Verification of the IntelliHome runtime coordinator
(`IntelliHome/App.py`, class `DomiSafeApp`).

Shallow embedding: the scheduler loop state (timers, security counters,
local log content) is passed explicitly; effectful calls to collaborators
(sensor reads, cloud sends) are recorded as an event trace; machine
times are `Int` (Python `time.time()` arithmetic is ordinary subtraction
and comparison); Python dicts become association lists in insertion
order; exception-raising code returns `Except`.
-/

namespace IntelliHome

/-- Python `str.strip` whitespace set, restricted to ASCII. -/
def isPySpace (c : Char) : Bool :=
  c == ' ' || c == '\t' || c == '\n' || c == '\r' ||
  c == Char.ofNat 11 || c == Char.ofNat 12

/-- Python `str.strip()` : drop leading and trailing whitespace. -/
def pyStrip (s : String) : String :=
  String.mk (((s.toList.dropWhile isPySpace).reverse.dropWhile isPySpace).reverse)

/-- Helper for `pyTitle`: the flag says whether the previous character was cased. -/
def titleAux : Bool → List Char → List Char
  | _, [] => []
  | prevCased, c :: rest =>
      if c.isAlpha then
        (if prevCased then c.toLower else c.toUpper) :: titleAux true rest
      else
        c :: titleAux false rest

/-- Python `str.title()` on ASCII text: the first letter of each
alphabetic run is uppercased, the following letters lowercased. -/
def pyTitle (s : String) : String :=
  String.mk (titleAux false s.toList)

/-- Python `str.upper()` on ASCII text. -/
def pyUpper (s : String) : String :=
  String.mk (s.toList.map Char.toUpper)

/-- Python dict lookup `d[k]` / membership `k in d` over an association
list in insertion order. -/
def dictGet {V : Type} (k : String) : List (String × V) → Option V
  | [] => none
  | p :: rest => if p.1 = k then some p.2 else dictGet k rest

/-- `ENV_FEEDS` from App.py. -/
def ENV_FEEDS : List (String × String) :=
  [("temperature", "temperature-feed"),
   ("humidity", "humidity-feed"),
   ("pressure", "pressure-feed")]

/-- `SECURITY_FEEDS` from App.py. -/
def SECURITY_FEEDS : List (String × String) :=
  [("motion_count", "motion-feed"),
   ("smoke_count", "smoke-feed"),
   ("sound_count", "sound-feed")]

/-- `CONTROL_FEEDS` from App.py. -/
def CONTROL_FEEDS : List (String × String) :=
  [("light", "light-control"),
   ("fan", "fan-control"),
   ("buzzer", "buzzer-control"),
   ("mode", "system-mode"),
   ("camera", "camera-trigger")]

/-- Observable effects of one scheduler tick: collaborator sensor reads
and individual cloud send attempts (`mqtt_agent.send_to_adafruit_io`). -/
inductive Event where
  | readEnvSensor : Event
  | readSecuritySensor : Event
  | cloudSend : String → String → Event
deriving DecidableEq, Repr

/-- `DomiSafeApp.send_to_cloud(data, feeds)`: loop over `feeds.items()`;
for each sensor name present in `data`, attempt one send; a failed send
flips the aggregate `success` flag but the loop continues. The returned
trace lists, in order, every send attempted. -/
def send_to_cloud (send : String → String → Bool) (data : List (String × String)) :
    List (String × String) → Bool × List Event
  | [] => (true, [])
  | (sensor_name, feed_key) :: rest =>
      match dictGet sensor_name data with
      | some v =>
          let r := send_to_cloud send data rest
          (send feed_key v && r.1, Event.cloudSend feed_key v :: r.2)
      | none => send_to_cloud send data rest

/-- The interval tunables read from the config in `DomiSafeApp.__init__`. -/
structure Config where
  security_check_interval : Int
  security_send_interval : Int
  env_interval : Int
deriving DecidableEq, Repr

/-- A security reading returned by `security_module.get_security_data()`;
`sec_data.get(f'X_detected', False)` is modelled by the Bool fields. -/
structure SecReading where
  motion_detected : Bool
  smoke_detected : Bool
  sound_detected : Bool
deriving DecidableEq, Repr

/-- The scheduler-owned mutable state of `data_collection_loop`:
the `timers` dict, the `security_counts` dict, and the content of the
two local log files (one list entry per JSON line written). -/
structure SchedState where
  env_check : Int
  security_check : Int
  security_send : Int
  motion : Nat
  smoke : Nat
  sound : Nat
  env_log : List (List (String × String))
  sec_log : List SecReading
deriving DecidableEq, Repr

/-- `timers = {'env_check': 0, 'security_check': 0, 'security_send': 0}`
and `security_counts = {'motion': 0, 'smoke': 0, 'sound': 0}` at loop
start, with both log files empty (fresh day files). -/
def initState : SchedState :=
  { env_check := 0, security_check := 0, security_send := 0,
    motion := 0, smoke := 0, sound := 0, env_log := [], sec_log := [] }

/-- The per-tick inputs supplied by the outside world: `time.time()`,
`time.strftime(...)`, the two sensor collaborators' readings, and the
transport's success behaviour for each attempted send. -/
structure TickEnv where
  current_time : Int
  timestamp : String
  env_reading : List (String × String)
  sec_reading : SecReading
  send : String → String → Bool

/-- `collect_environmental_data`: when `env_interval` has elapsed,
read the sensor, append the reading to the environmental log file,
then attempt the cloud send (outcome only logged), and set the timer. -/
def collect_environmental_data (cfg : Config) (env : TickEnv) (s : SchedState) :
    SchedState × List Event :=
  if env.current_time - s.env_check ≥ cfg.env_interval then
    let r := send_to_cloud env.send env.env_reading ENV_FEEDS
    ({ s with env_check := env.current_time,
              env_log := s.env_log ++ [env.env_reading] },
     Event.readEnvSensor :: r.2)
  else (s, [])

/-- First half of `collect_security_data`: when `security_check_interval`
has elapsed, read the security sensor, bump a counter for each detector
flagged, write the raw reading to the security log file only if at least
one flag fired, and set the timer. -/
def security_check_step (cfg : Config) (env : TickEnv) (s : SchedState) :
    SchedState × List Event :=
  if env.current_time - s.security_check ≥ cfg.security_check_interval then
    let sec := env.sec_reading
    ({ s with
        motion := s.motion + (if sec.motion_detected then 1 else 0),
        smoke := s.smoke + (if sec.smoke_detected then 1 else 0),
        sound := s.sound + (if sec.sound_detected then 1 else 0),
        sec_log :=
          if sec.motion_detected || sec.smoke_detected || sec.sound_detected
          then s.sec_log ++ [sec] else s.sec_log,
        security_check := env.current_time },
     [Event.readSecuritySensor])
  else (s, [])

/-- Second half of `collect_security_data`: when `security_send_interval`
has elapsed, build the summary dict (timestamp plus the three counters),
attempt the cloud send, reset the counters regardless of the outcome,
and set the timer. -/
def security_summary_step (cfg : Config) (env : TickEnv) (s : SchedState) :
    SchedState × List Event :=
  if env.current_time - s.security_send ≥ cfg.security_send_interval then
    let summary : List (String × String) :=
      [("timestamp", env.timestamp),
       ("motion_count", toString s.motion),
       ("smoke_count", toString s.smoke),
       ("sound_count", toString s.sound)]
    let r := send_to_cloud env.send summary SECURITY_FEEDS
    ({ s with motion := 0, smoke := 0, sound := 0,
              security_send := env.current_time }, r.2)
  else (s, [])

/-- `collect_security_data`: the check substep followed by the summary
substep, in source order. -/
def collect_security_data (cfg : Config) (env : TickEnv) (s : SchedState) :
    SchedState × List Event :=
  let r1 := security_check_step cfg env s
  let r2 := security_summary_step cfg env r1.1
  (r2.1, r1.2 ++ r2.2)

/-- One iteration of the `while self.running` body of
`data_collection_loop` (the fsync step touches no modelled state):
environmental collection always runs; the whole security task runs only
when `self.system_mode != 'Home'`. -/
def tick (cfg : Config) (env : TickEnv) (s : SchedState) (mode : String) :
    SchedState × List Event :=
  let r1 := collect_environmental_data cfg env s
  if mode ≠ "Home" then
    let r2 := collect_security_data cfg env r1.1
    (r2.1, r1.2 ++ r2.2)
  else r1

/-- One tick of a run, as recorded in a trace: the mode observed at the
tick, the scheduler state before and after, and the events emitted. -/
structure TickRecord where
  mode : String
  before : SchedState
  after : SchedState
  events : List Event
deriving DecidableEq, Repr

/-- A run of the scheduler loop over a sequence of tick inputs (per-tick
environment and the system mode read at line `self.system_mode != 'Home'`),
threading the state and recording one `TickRecord` per tick. -/
def runTrace (cfg : Config) : SchedState → List (TickEnv × String) → List TickRecord
  | _, [] => []
  | s, (env, mode) :: rest =>
      let r := tick cfg env s mode
      { mode := mode, before := s, after := r.1, events := r.2 } :: runTrace cfg r.1 rest

/-- `DomiSafeApp.set_system_mode(new_mode_raw)`: normalize with
`str(...).strip().title()`; accept only `Home` and `Away`, otherwise keep
the current mode. The Bool is `true` when the mode was updated, `false`
when the value was rejected with a warning. -/
def set_system_mode (current : String) (new_mode_raw : String) : String × Bool :=
  let new_mode := pyTitle (pyStrip new_mode_raw)
  if new_mode = "Home" ∨ new_mode = "Away" then (new_mode, true)
  else (current, false)

/-- An action the command handler performs against a collaborator. -/
inductive Action where
  | setMode : String → Action
  | triggerCapture : Action
  | publish : String → String → Action
  | processCommand : String → String → Action
deriving DecidableEq, Repr

/-- The actuator scan at the bottom of `handle_incoming_mqtt_command`:
first control feed matching the topic whose device is neither `mode` nor
`camera` gets the payload forwarded; the loop then breaks. -/
def actuator_scan (feed_name payload : String) : List (String × String) → List Action
  | [] => []
  | (device_name, feed_key) :: rest =>
      if feed_name = feed_key ∧ device_name ≠ "mode" ∧ device_name ≠ "camera" then
        [Action.processCommand device_name payload]
      else actuator_scan feed_name payload rest

/-- `DomiSafeApp.handle_incoming_mqtt_command(feed_name, payload)`:
mode topic first; then the camera topic with payload `TAKE_PHOTO` or `1`
(after `payload.upper()`), which triggers a manual capture and publishes
`PHOTO_TAKEN` back on the camera feed; otherwise the actuator scan. -/
def handle_incoming_mqtt_command (feed_name payload : String) : List Action :=
  if feed_name = "system-mode" then [Action.setMode payload]
  else if feed_name = "camera-trigger" ∧
          (pyUpper payload = "TAKE_PHOTO" ∨ pyUpper payload = "1") then
    [Action.triggerCapture, Action.publish "camera-trigger" "PHOTO_TAKEN"]
  else actuator_scan feed_name payload CONTROL_FEEDS

/-- What opening and parsing the config file can yield: the file is
missing (`FileNotFoundError`), present but not valid JSON
(`json.JSONDecodeError`), or parsed to a JSON object. -/
inductive FileRead where
  | missing : FileRead
  | unparseable : FileRead
  | parsed : List (String × Int) → FileRead
deriving DecidableEq, Repr

/-- `default_config` from `DomiSafeApp.load_config`. -/
def default_config : List (String × Int) :=
  [("security_check_interval", 5), ("security_send_interval", 360),
   ("env_interval", 360), ("flushing_interval", 10),
   ("cooldown_duration_sec", 10)]

/-- Python `{**default_config, **config}`: defaults first in order, each
overridden by `config` when it has the key, then `config`'s new keys. -/
def dictMerge (base overrides : List (String × Int)) : List (String × Int) :=
  base.map (fun p => (p.1, (dictGet p.1 overrides).getD p.2)) ++
  overrides.filter (fun p => (dictGet p.1 base).isNone)

/-- `DomiSafeApp.load_config`: only `FileNotFoundError` is caught (defaults
plus a warning, modelled by the `true` flag); a JSON parse error is not
caught and propagates; a parsed object is merged over the defaults. -/
def load_config : FileRead → Except String (List (String × Int) × Bool)
  | FileRead.missing => Except.ok (default_config, true)
  | FileRead.unparseable => Except.error "json.JSONDecodeError"
  | FileRead.parsed config => Except.ok (dictMerge default_config config, false)

/-- Whether one event is a successful step under a given transport:
a send attempt is good when the transport accepted it; sensor reads
are always good. -/
def evOk (send : String → String → Bool) : Event → Bool
  | Event.cloudSend k v => send k v
  | _ => true

/-- A constant transport behaviour, for concrete runs. -/
def sendAlways (b : Bool) : String → String → Bool := fun _ _ => b

/-- A security reading with no detector flag fired. -/
def secReadingNone : SecReading :=
  { motion_detected := false, smoke_detected := false, sound_detected := false }

/-- A security reading with only the motion flag fired. -/
def secReadingMotion : SecReading :=
  { motion_detected := true, smoke_detected := false, sound_detected := false }

/-- The default interval configuration (5 / 360 / 360 seconds). -/
def cfgA : Config :=
  { security_check_interval := 5, security_send_interval := 360, env_interval := 360 }

/-- A concrete tick environment: time 1000, a quiet security reading,
a reachable transport. -/
def envQuiet : TickEnv :=
  { current_time := 1000, timestamp := "2026-10-12T00:00:00",
    env_reading := [("temperature", "21")],
    sec_reading := secReadingNone, send := sendAlways true }

/-- A concrete tick environment: time 1000, motion detected, transport down. -/
def envMotion : TickEnv :=
  { current_time := 1000, timestamp := "2026-10-12T00:00:00",
    env_reading := [("temperature", "21")],
    sec_reading := secReadingMotion, send := sendAlways false }

/- ------------------------------------------------------------------ -/
/- Lemmas about `send_to_cloud`.                                       -/
/- ------------------------------------------------------------------ -/

theorem send_to_cloud_events_complete (send : String → String → Bool)
    (data : List (String × String)) :
    ∀ feeds : List (String × String), ∀ name key v,
      (name, key) ∈ feeds → dictGet name data = some v →
      Event.cloudSend key v ∈ (send_to_cloud send data feeds).2 := by
  intro feeds
  induction feeds with
  | nil => intro name key v hmem _; simp at hmem
  | cons hd tl ih =>
    intro name key v hmem hv
    obtain ⟨n, k⟩ := hd
    rcases List.mem_cons.mp hmem with heq | htl
    · obtain ⟨rfl, rfl⟩ := Prod.mk.injEq n k name key ▸ heq.symm
      simp [send_to_cloud, hv]
    · cases hdg : dictGet n data with
      | some w =>
          simp only [send_to_cloud, hdg]
          exact List.mem_cons_of_mem _ (ih name key v htl hv)
      | none =>
          simp only [send_to_cloud, hdg]
          exact ih name key v htl hv

theorem send_to_cloud_result_eq_all (send : String → String → Bool)
    (data : List (String × String)) :
    ∀ feeds : List (String × String),
      (send_to_cloud send data feeds).1 =
        (send_to_cloud send data feeds).2.all (evOk send) := by
  intro feeds
  induction feeds with
  | nil => rfl
  | cons hd tl ih =>
    obtain ⟨n, k⟩ := hd
    cases hdg : dictGet n data with
    | some v => simp [send_to_cloud, hdg, evOk, ih]
    | none => simp only [send_to_cloud, hdg]; exact ih

theorem send_to_cloud_events_are_sends (send : String → String → Bool)
    (data : List (String × String)) :
    ∀ feeds : List (String × String), ∀ e ∈ (send_to_cloud send data feeds).2,
      ∃ k v, e = Event.cloudSend k v := by
  intro feeds
  induction feeds with
  | nil => intro e he; simp [send_to_cloud] at he
  | cons hd tl ih =>
    obtain ⟨n, k⟩ := hd
    intro e he
    cases hdg : dictGet n data with
    | some v =>
        simp only [send_to_cloud, hdg, List.mem_cons] at he
        rcases he with rfl | he
        · exact ⟨k, v, rfl⟩
        · exact ih e he
    | none =>
        simp only [send_to_cloud, hdg] at he
        exact ih e he

/-- Claim C5: `send_to_cloud` attempts a send for every metric name
present in both the values mapping and the feed mapping (so one failure
does not abort the remaining attempts — the attempt trace does not
depend on the transport's outcomes), and it returns `true` if and only
if every attempted send succeeded. -/
theorem send_to_cloud_best_effort (send : String → String → Bool)
    (data feeds : List (String × String)) :
    (∀ name key v, (name, key) ∈ feeds → dictGet name data = some v →
        Event.cloudSend key v ∈ (send_to_cloud send data feeds).2) ∧
    ((send_to_cloud send data feeds).1 = true ↔
        ∀ e ∈ (send_to_cloud send data feeds).2, evOk send e = true) := by
  refine ⟨fun name key v hm hv =>
    send_to_cloud_events_complete send data feeds name key v hm hv, ?_⟩
  rw [send_to_cloud_result_eq_all]
  exact List.all_eq_true

theorem send_to_cloud_best_effort_witness :
    Event.cloudSend "temperature-feed" "21" ∈
      (send_to_cloud (sendAlways false) [("temperature", "21")] ENV_FEEDS).2 ∧
    (send_to_cloud (sendAlways false) [("temperature", "21")] ENV_FEEDS).1 = false := by
  constructor
  · exact (send_to_cloud_best_effort (sendAlways false)
      [("temperature", "21")] ENV_FEEDS).1 "temperature" "temperature-feed" "21"
      (by decide) (by decide)
  · by_contra hne
    have hall := (send_to_cloud_best_effort (sendAlways false)
        [("temperature", "21")] ENV_FEEDS).2.mp (by
      cases hb : (send_to_cloud (sendAlways false) [("temperature", "21")] ENV_FEEDS).1
      · exact absurd hb hne
      · rfl)
    have := hall (Event.cloudSend "temperature-feed" "21") (by decide)
    simp [evOk, sendAlways] at this

/-- Claim C9: when no metric name appears in both the values mapping and
the feed mapping, `send_to_cloud` attempts no send and returns `true`. -/
theorem send_to_cloud_disjoint (send : String → String → Bool)
    (data feeds : List (String × String))
    (h : ∀ p ∈ feeds, dictGet p.1 data = none) :
    (send_to_cloud send data feeds).2 = [] ∧
    (send_to_cloud send data feeds).1 = true := by
  induction feeds with
  | nil => exact ⟨rfl, rfl⟩
  | cons hd tl ih =>
    obtain ⟨n, k⟩ := hd
    have hn : dictGet n data = none := h (n, k) (List.mem_cons_self _ _)
    simp only [send_to_cloud, hn]
    exact ih fun p hp => h p (List.mem_cons_of_mem _ hp)

theorem send_to_cloud_disjoint_witness :
    (send_to_cloud (sendAlways true) [("voltage", "3")] ENV_FEEDS).2 = [] ∧
    (send_to_cloud (sendAlways true) [("voltage", "3")] ENV_FEEDS).1 = true :=
  send_to_cloud_disjoint (sendAlways true) [("voltage", "3")] ENV_FEEDS (by decide)

/- ------------------------------------------------------------------ -/
/- Lemmas about the scheduler steps.                                   -/
/- ------------------------------------------------------------------ -/

theorem collect_environmental_data_security_fields (cfg : Config) (env : TickEnv)
    (s : SchedState) :
    (collect_environmental_data cfg env s).1.motion = s.motion ∧
    (collect_environmental_data cfg env s).1.smoke = s.smoke ∧
    (collect_environmental_data cfg env s).1.sound = s.sound ∧
    (collect_environmental_data cfg env s).1.security_check = s.security_check ∧
    (collect_environmental_data cfg env s).1.security_send = s.security_send ∧
    (collect_environmental_data cfg env s).1.sec_log = s.sec_log := by
  by_cases h : env.current_time - s.env_check ≥ cfg.env_interval <;>
    simp [collect_environmental_data, h]

theorem collect_environmental_data_no_security_read (cfg : Config) (env : TickEnv)
    (s : SchedState) :
    Event.readSecuritySensor ∉ (collect_environmental_data cfg env s).2 := by
  by_cases h : env.current_time - s.env_check ≥ cfg.env_interval
  · intro hmem
    simp only [collect_environmental_data, if_pos h, List.mem_cons] at hmem
    rcases hmem with heq | hin
    · exact Event.noConfusion heq
    · obtain ⟨k, v, heq⟩ :=
        send_to_cloud_events_are_sends env.send env.env_reading ENV_FEEDS _ hin
      exact Event.noConfusion heq
  · intro hmem
    simp [collect_environmental_data, h] at hmem

theorem collect_environmental_data_fires (cfg : Config) (env : TickEnv)
    (s : SchedState) (h : env.current_time - s.env_check ≥ cfg.env_interval) :
    (collect_environmental_data cfg env s).1 =
      { s with env_check := env.current_time,
               env_log := s.env_log ++ [env.env_reading] } ∧
    (collect_environmental_data cfg env s).2 =
      Event.readEnvSensor :: (send_to_cloud env.send env.env_reading ENV_FEEDS).2 := by
  simp [collect_environmental_data, h]

theorem security_check_step_other_fields (cfg : Config) (env : TickEnv)
    (s : SchedState) :
    (security_check_step cfg env s).1.security_send = s.security_send ∧
    (security_check_step cfg env s).1.env_check = s.env_check ∧
    (security_check_step cfg env s).1.env_log = s.env_log := by
  by_cases h : env.current_time - s.security_check ≥ cfg.security_check_interval <;>
    simp [security_check_step, h]

theorem security_check_step_fires (cfg : Config) (env : TickEnv) (s : SchedState)
    (h : env.current_time - s.security_check ≥ cfg.security_check_interval) :
    (security_check_step cfg env s).2 = [Event.readSecuritySensor] ∧
    (security_check_step cfg env s).1.security_check = env.current_time := by
  simp [security_check_step, h]

theorem security_summary_step_fires (cfg : Config) (env : TickEnv) (s : SchedState)
    (h : env.current_time - s.security_send ≥ cfg.security_send_interval) :
    (security_summary_step cfg env s).1 =
      { s with motion := 0, smoke := 0, sound := 0,
               security_send := env.current_time } ∧
    (security_summary_step cfg env s).2 =
      [Event.cloudSend "motion-feed" (toString s.motion),
       Event.cloudSend "smoke-feed" (toString s.smoke),
       Event.cloudSend "sound-feed" (toString s.sound)] := by
  refine ⟨by simp [security_summary_step, h], ?_⟩
  simp only [security_summary_step, if_pos h]
  rfl

theorem tick_home (cfg : Config) (env : TickEnv) (s : SchedState) :
    tick cfg env s "Home" = collect_environmental_data cfg env s := by
  simp [tick]

theorem tick_away (cfg : Config) (env : TickEnv) (s : SchedState) (mode : String)
    (hmode : mode ≠ "Home") :
    tick cfg env s mode =
      ((collect_security_data cfg env (collect_environmental_data cfg env s).1).1,
       (collect_environmental_data cfg env s).2 ++
         (collect_security_data cfg env (collect_environmental_data cfg env s).1).2) := by
  simp [tick, hmode]

/- ------------------------------------------------------------------ -/
/- Claim C1 (corrected).                                               -/
/- ------------------------------------------------------------------ -/

/-- Claim C1 as stated is false: with mode Away and the check timer
elapsed, a security reading with no detector flag fired is sampled (the
security collaborator is read during the tick) yet the security log
stays empty. -/
theorem security_quiet_reading_not_logged :
    Event.readSecuritySensor ∈ (tick cfgA envQuiet initState "Away").2 ∧
    (tick cfgA envQuiet initState "Away").1.sec_log = [] := by
  constructor
  · decide
  · rfl

/-- Claim C1 (amended): every sampled environmental reading is appended
to the environmental log, and a sampled security reading is appended to
the security log exactly when at least one detector flag fired — in both
cases the written content is independent of the transport's outcome (the
conclusion holds for every `env.send`). -/
theorem sampled_readings_logged (cfg : Config) (env : TickEnv) (s : SchedState) :
    (env.current_time - s.env_check ≥ cfg.env_interval →
      (collect_environmental_data cfg env s).1.env_log =
        s.env_log ++ [env.env_reading]) ∧
    (env.current_time - s.security_check ≥ cfg.security_check_interval →
      (security_check_step cfg env s).1.sec_log =
        (if env.sec_reading.motion_detected || env.sec_reading.smoke_detected ||
            env.sec_reading.sound_detected
         then s.sec_log ++ [env.sec_reading] else s.sec_log)) := by
  constructor
  · intro h; simp [collect_environmental_data, h]
  · intro h; simp [security_check_step, h]

theorem sampled_readings_logged_witness :
    (collect_environmental_data cfgA envMotion initState).1.env_log =
      initState.env_log ++ [envMotion.env_reading] ∧
    (security_check_step cfgA envMotion initState).1.sec_log =
      (if envMotion.sec_reading.motion_detected ||
          envMotion.sec_reading.smoke_detected ||
          envMotion.sec_reading.sound_detected
       then initState.sec_log ++ [envMotion.sec_reading]
       else initState.sec_log) :=
  ⟨(sampled_readings_logged cfgA envMotion initState).1 (by decide),
   (sampled_readings_logged cfgA envMotion initState).2 (by decide)⟩

/- ------------------------------------------------------------------ -/
/- Claim C2 (confirmed).                                               -/
/- ------------------------------------------------------------------ -/

theorem tick_home_security_untouched (cfg : Config) (env : TickEnv) (s : SchedState) :
    Event.readSecuritySensor ∉ (tick cfg env s "Home").2 ∧
    (tick cfg env s "Home").1.motion = s.motion ∧
    (tick cfg env s "Home").1.smoke = s.smoke ∧
    (tick cfg env s "Home").1.sound = s.sound ∧
    (tick cfg env s "Home").1.security_check = s.security_check ∧
    (tick cfg env s "Home").1.sec_log = s.sec_log := by
  rw [tick_home]
  have hf := collect_environmental_data_security_fields cfg env s
  exact ⟨collect_environmental_data_no_security_read cfg env s,
    hf.1, hf.2.1, hf.2.2.1, hf.2.2.2.1, hf.2.2.2.2.2⟩

/-- Claim C2: over any run of the scheduler loop, a tick that observes
mode Home never executes the security sampling step: the security
collaborator is not read, and the detection counters (with the
security-check timer and the security log) are unchanged by that tick. -/
theorem security_never_samples_in_home_mode (cfg : Config) (s : SchedState)
    (inputs : List (TickEnv × String)) :
    ∀ t ∈ runTrace cfg s inputs, t.mode = "Home" →
      Event.readSecuritySensor ∉ t.events ∧
      t.after.motion = t.before.motion ∧
      t.after.smoke = t.before.smoke ∧
      t.after.sound = t.before.sound ∧
      t.after.security_check = t.before.security_check ∧
      t.after.sec_log = t.before.sec_log := by
  induction inputs generalizing s with
  | nil => intro t ht; simp [runTrace] at ht
  | cons hd tl ih =>
    obtain ⟨env, mode⟩ := hd
    intro t ht hmode
    rcases List.mem_cons.mp ht with rfl | htl
    · have hm : mode = "Home" := hmode
      subst hm
      exact tick_home_security_untouched cfg env s
    · exact ih (tick cfg env s mode).1 t htl hmode

theorem security_never_samples_in_home_mode_witness :
    Event.readSecuritySensor ∉ (tick cfgA envQuiet initState "Home").2 ∧
    (tick cfgA envQuiet initState "Home").1.motion = initState.motion ∧
    (tick cfgA envQuiet initState "Home").1.smoke = initState.smoke ∧
    (tick cfgA envQuiet initState "Home").1.sound = initState.sound ∧
    (tick cfgA envQuiet initState "Home").1.security_check = initState.security_check ∧
    (tick cfgA envQuiet initState "Home").1.sec_log = initState.sec_log :=
  security_never_samples_in_home_mode cfgA initState [(envQuiet, "Home")]
    { mode := "Home", before := initState,
      after := (tick cfgA envQuiet initState "Home").1,
      events := (tick cfgA envQuiet initState "Home").2 }
    (List.mem_cons_self _ _) rfl

/- ------------------------------------------------------------------ -/
/- Claim C3 (corrected).                                               -/
/- ------------------------------------------------------------------ -/

/-- Claim C3 as stated is false: on a tick where the summary timer has
elapsed but the mode is Home, the security summary step does not run —
the counters are not reset and the securitySend timer is not set,
because the whole security task (summary included) is gated on the mode
not being Home. -/
theorem summary_skipped_in_home_mode :
    envQuiet.current_time - ({ initState with motion := 1 } : SchedState).security_send ≥
      cfgA.security_send_interval ∧
    (tick cfgA envQuiet { initState with motion := 1 } "Home").1.motion = 1 ∧
    (tick cfgA envQuiet { initState with motion := 1 } "Home").1.security_send = 0 := by
  refine ⟨by decide, rfl, rfl⟩

/-- Claim C3 (amended): on every tick where the mode is not Home and at
least securitySendIntervalSec has elapsed since the last summary send,
the summary step runs — a publish is attempted on each of the three
security feeds, the counters are reset and the securitySend timer is set
to now. Within the security task the step is conditioned only on its own
timer, but the security task as a whole (summary included) additionally
requires the mode to differ from Home. -/
theorem summary_runs_when_not_home (cfg : Config) (env : TickEnv) (s : SchedState)
    (mode : String) (hmode : mode ≠ "Home")
    (h : env.current_time - s.security_send ≥ cfg.security_send_interval) :
    (tick cfg env s mode).1.motion = 0 ∧
    (tick cfg env s mode).1.smoke = 0 ∧
    (tick cfg env s mode).1.sound = 0 ∧
    (tick cfg env s mode).1.security_send = env.current_time ∧
    (∃ v, Event.cloudSend "motion-feed" v ∈ (tick cfg env s mode).2) ∧
    (∃ v, Event.cloudSend "smoke-feed" v ∈ (tick cfg env s mode).2) ∧
    (∃ v, Event.cloudSend "sound-feed" v ∈ (tick cfg env s mode).2) := by
  rw [tick_away cfg env s mode hmode]
  set s1 := (collect_environmental_data cfg env s).1 with hs1
  have hs1send : s1.security_send = s.security_send :=
    (collect_environmental_data_security_fields cfg env s).2.2.2.2.1
  show (collect_security_data cfg env s1).1.motion = 0 ∧ _
  unfold collect_security_data
  set s2 := (security_check_step cfg env s1).1 with hs2
  have hs2send : s2.security_send = s.security_send := by
    rw [hs2, (security_check_step_other_fields cfg env s1).1, hs1send]
  have hfire : env.current_time - s2.security_send ≥ cfg.security_send_interval := by
    rw [hs2send]; exact h
  have hsum := security_summary_step_fires cfg env s2 hfire
  refine ⟨by rw [hsum.1], by rw [hsum.1], by rw [hsum.1], by rw [hsum.1], ?_, ?_, ?_⟩
  · exact ⟨toString s2.motion, by
      apply List.mem_append_right
      apply List.mem_append_right
      rw [hsum.2]
      exact List.mem_cons_self _ _⟩
  · exact ⟨toString s2.smoke, by
      apply List.mem_append_right
      apply List.mem_append_right
      rw [hsum.2]
      exact List.mem_cons_of_mem _ (List.mem_cons_self _ _)⟩
  · exact ⟨toString s2.sound, by
      apply List.mem_append_right
      apply List.mem_append_right
      rw [hsum.2]
      exact List.mem_cons_of_mem _ (List.mem_cons_of_mem _ (List.mem_cons_self _ _))⟩

theorem summary_runs_when_not_home_witness :
    (tick cfgA envQuiet { initState with motion := 2 } "Away").1.motion = 0 ∧
    (tick cfgA envQuiet { initState with motion := 2 } "Away").1.smoke = 0 ∧
    (tick cfgA envQuiet { initState with motion := 2 } "Away").1.sound = 0 ∧
    (tick cfgA envQuiet { initState with motion := 2 } "Away").1.security_send =
      envQuiet.current_time ∧
    (∃ v, Event.cloudSend "motion-feed" v ∈
      (tick cfgA envQuiet { initState with motion := 2 } "Away").2) ∧
    (∃ v, Event.cloudSend "smoke-feed" v ∈
      (tick cfgA envQuiet { initState with motion := 2 } "Away").2) ∧
    (∃ v, Event.cloudSend "sound-feed" v ∈
      (tick cfgA envQuiet { initState with motion := 2 } "Away").2) :=
  summary_runs_when_not_home cfgA envQuiet { initState with motion := 2 } "Away"
    (by decide) (by decide)

/- ------------------------------------------------------------------ -/
/- Claim C7 (confirmed).                                               -/
/- ------------------------------------------------------------------ -/

/-- Claim C7: whenever `collect_security_data` runs its summary step
(the summary timer has elapsed), all three security counters are zero
immediately afterwards, whatever the outcome of the publish attempt
(the transport `env.send` is arbitrary). -/
theorem counters_zero_after_summary (cfg : Config) (env : TickEnv) (s : SchedState)
    (h : env.current_time - s.security_send ≥ cfg.security_send_interval) :
    (collect_security_data cfg env s).1.motion = 0 ∧
    (collect_security_data cfg env s).1.smoke = 0 ∧
    (collect_security_data cfg env s).1.sound = 0 := by
  unfold collect_security_data
  set s2 := (security_check_step cfg env s).1 with hs2
  have hfire : env.current_time - s2.security_send ≥ cfg.security_send_interval := by
    rw [hs2, (security_check_step_other_fields cfg env s).1]; exact h
  have hsum := security_summary_step_fires cfg env s2 hfire
  exact ⟨by rw [hsum.1], by rw [hsum.1], by rw [hsum.1]⟩

theorem counters_zero_after_summary_witness :
    (collect_security_data cfgA envMotion { initState with smoke := 7 }).1.motion = 0 ∧
    (collect_security_data cfgA envMotion { initState with smoke := 7 }).1.smoke = 0 ∧
    (collect_security_data cfgA envMotion { initState with smoke := 7 }).1.sound = 0 :=
  counters_zero_after_summary cfgA envMotion { initState with smoke := 7 } (by decide)

/- ------------------------------------------------------------------ -/
/- Claim C10 (confirmed).                                              -/
/- ------------------------------------------------------------------ -/

/-- Claim C10: the three task timers start at 0 when the loop starts, so
on a first tick whose current time is at least every configured interval
the environmental task fires immediately, and, when the mode is not
Home, the security check and the security summary fire immediately as
well. -/
theorem first_tick_fires_immediately (cfg : Config) (env : TickEnv) (mode : String)
    (h1 : env.current_time ≥ cfg.env_interval)
    (h2 : env.current_time ≥ cfg.security_check_interval)
    (h3 : env.current_time ≥ cfg.security_send_interval) :
    initState.env_check = 0 ∧ initState.security_check = 0 ∧
    initState.security_send = 0 ∧
    Event.readEnvSensor ∈ (tick cfg env initState mode).2 ∧
    (tick cfg env initState mode).1.env_check = env.current_time ∧
    (mode ≠ "Home" →
      Event.readSecuritySensor ∈ (tick cfg env initState mode).2 ∧
      (tick cfg env initState mode).1.security_check = env.current_time ∧
      (tick cfg env initState mode).1.security_send = env.current_time) := by
  have henv : env.current_time - initState.env_check ≥ cfg.env_interval := by
    simp only [initState]; omega
  have henvf := collect_environmental_data_fires cfg env initState henv
  have hs1fields := collect_environmental_data_security_fields cfg env initState
  set s1 := (collect_environmental_data cfg env initState).1 with hs1
  have hchk : env.current_time - s1.security_check ≥ cfg.security_check_interval := by
    rw [hs1fields.2.2.2.1]; simp only [initState]; omega
  have hchkf := security_check_step_fires cfg env s1 hchk
  have hothers := security_check_step_other_fields cfg env s1
  set s2 := (security_check_step cfg env s1).1 with hs2
  have hsend : env.current_time - s2.security_send ≥ cfg.security_send_interval := by
    rw [hothers.1, hs1fields.2.2.2.2.1]; simp only [initState]; omega
  have hsumf := security_summary_step_fires cfg env s2 hsend
  refine ⟨rfl, rfl, rfl, ?_, ?_, ?_⟩
  · by_cases hm : mode = "Home"
    · subst hm
      rw [tick_home, henvf.2]
      exact List.mem_cons_self _ _
    · rw [tick_away cfg env initState mode hm]
      exact List.mem_append_left _ (by rw [henvf.2]; exact List.mem_cons_self _ _)
  · by_cases hm : mode = "Home"
    · subst hm
      rw [tick_home, ← hs1, henvf.1]
    · rw [tick_away cfg env initState mode hm]
      show (security_summary_step cfg env
        (security_check_step cfg env s1).1).1.env_check = env.current_time
      rw [← hs2, hsumf.1]
      show s2.env_check = env.current_time
      rw [hothers.2.1, henvf.1]
  · intro hm
    rw [tick_away cfg env initState mode hm]
    refine ⟨?_, ?_, ?_⟩
    · show Event.readSecuritySensor ∈
        (collect_environmental_data cfg env initState).2 ++
          ((security_check_step cfg env s1).2 ++
            (security_summary_step cfg env (security_check_step cfg env s1).1).2)
      apply List.mem_append_right
      apply List.mem_append_left
      rw [hchkf.1]
      exact List.mem_cons_self _ _
    · show (security_summary_step cfg env
        (security_check_step cfg env s1).1).1.security_check = env.current_time
      rw [← hs2, hsumf.1]
      exact hchkf.2
    · show (security_summary_step cfg env
        (security_check_step cfg env s1).1).1.security_send = env.current_time
      rw [← hs2, hsumf.1]

theorem first_tick_fires_immediately_witness :
    initState.env_check = 0 ∧ initState.security_check = 0 ∧
    initState.security_send = 0 ∧
    Event.readEnvSensor ∈ (tick cfgA envQuiet initState "Away").2 ∧
    (tick cfgA envQuiet initState "Away").1.env_check = envQuiet.current_time ∧
    ("Away" ≠ "Home" →
      Event.readSecuritySensor ∈ (tick cfgA envQuiet initState "Away").2 ∧
      (tick cfgA envQuiet initState "Away").1.security_check = envQuiet.current_time ∧
      (tick cfgA envQuiet initState "Away").1.security_send = envQuiet.current_time) :=
  first_tick_fires_immediately cfgA envQuiet "Away"
    (by decide) (by decide) (by decide)

/- ------------------------------------------------------------------ -/
/- Claim C4 (confirmed).                                               -/
/- ------------------------------------------------------------------ -/

/-- Claim C4: any raw input whose normalization (strip then title-case)
is neither `Home` nor `Away` leaves the held mode unchanged and is
reported as rejected (the `false` flag, a non-raising warning); an input
normalizing to `Home` or `Away` makes the held mode that value. -/
theorem set_system_mode_validates (current new_mode_raw : String) :
    (pyTitle (pyStrip new_mode_raw) ≠ "Home" ∧ pyTitle (pyStrip new_mode_raw) ≠ "Away" →
      set_system_mode current new_mode_raw = (current, false)) ∧
    (pyTitle (pyStrip new_mode_raw) = "Home" ∨ pyTitle (pyStrip new_mode_raw) = "Away" →
      set_system_mode current new_mode_raw = (pyTitle (pyStrip new_mode_raw), true)) := by
  constructor
  · intro h
    simp [set_system_mode, h.1, h.2]
  · intro h
    simp only [set_system_mode]
    rw [if_pos h]

theorem set_system_mode_validates_witness :
    (pyTitle (pyStrip " vacation ") ≠ "Home" ∧ pyTitle (pyStrip " vacation ") ≠ "Away") ∧
    set_system_mode "Home" " vacation " = ("Home", false) ∧
    set_system_mode "Home" " aWaY " = ("Away", true) := by
  refine ⟨by decide, (set_system_mode_validates "Home" " vacation ").1 (by decide), ?_⟩
  have h := (set_system_mode_validates "Home" " aWaY ").2 (Or.inr (by decide))
  rw [h]
  decide

/- ------------------------------------------------------------------ -/
/- Claim C8 (confirmed).                                               -/
/- ------------------------------------------------------------------ -/

/-- Claim C8: on the camera topic, a payload whose uppercasing is
`TAKE_PHOTO` or `1` triggers the manual capture exactly once and then
publishes `PHOTO_TAKEN` back on the camera topic; any other payload on
the camera topic performs no action at all (no trigger, no publish, no
actuator forwarding). -/
theorem camera_topic_dispatch (payload : String) :
    (pyUpper payload = "TAKE_PHOTO" ∨ pyUpper payload = "1" →
      handle_incoming_mqtt_command "camera-trigger" payload =
        [Action.triggerCapture, Action.publish "camera-trigger" "PHOTO_TAKEN"]) ∧
    (¬(pyUpper payload = "TAKE_PHOTO" ∨ pyUpper payload = "1") →
      handle_incoming_mqtt_command "camera-trigger" payload = []) := by
  constructor
  · intro h
    simp [handle_incoming_mqtt_command, h]
  · intro h
    simp only [handle_incoming_mqtt_command]
    rw [if_neg (by decide)]
    rw [if_neg (by
      intro hc
      exact h hc.2)]
    simp [actuator_scan, CONTROL_FEEDS]

theorem camera_topic_dispatch_witness :
    handle_incoming_mqtt_command "camera-trigger" "1" =
      [Action.triggerCapture, Action.publish "camera-trigger" "PHOTO_TAKEN"] ∧
    handle_incoming_mqtt_command "camera-trigger" "off" = [] :=
  ⟨(camera_topic_dispatch "1").1 (by decide),
   (camera_topic_dispatch "off").2 (by decide)⟩

/- ------------------------------------------------------------------ -/
/- Claim C6 (corrected).                                               -/
/- ------------------------------------------------------------------ -/

/-- Claim C6 as stated is false for the unparseable case: `load_config`
catches only the missing-file error, so a present-but-unparseable
config file makes the load raise (the JSON decode error propagates). -/
theorem load_config_unparseable_raises :
    load_config FileRead.unparseable = Except.error "json.JSONDecodeError" := rfl

/-- Claim C6 (amended): when the configuration file is missing, loading
returns the built-in defaults — security_check_interval 5,
security_send_interval 360, env_interval 360, flushing_interval 10 —
with a warning reported and no exception; an unparseable file instead
propagates the parse error. -/
theorem load_config_missing_defaults :
    load_config FileRead.missing = Except.ok (default_config, true) ∧
    dictGet "security_check_interval" default_config = some 5 ∧
    dictGet "security_send_interval" default_config = some 360 ∧
    dictGet "env_interval" default_config = some 360 ∧
    dictGet "flushing_interval" default_config = some 10 ∧
    (∃ msg, load_config FileRead.unparseable = Except.error msg) := by
  exact ⟨rfl, rfl, rfl, rfl, rfl, "json.JSONDecodeError", rfl⟩

end IntelliHome
